import Mathlib

/-!
Shallow embedding of the pyadb wrapper: the interruptible worker thread
(src/adb_thread.py, duplicated in src/__init__.py), the non-blocking polling
line reader (src/adb_nio.py, duplicated in src/__init__.py), and the polling
command-execution loop of class Adb (src/__init__.py).

Stateful Python objects become explicit state records; methods become pure
functions from the state to a result paired with the next state; code that
raises becomes Except-valued.  Concurrency is embedded sequentially: the
worker thread is a record of its liveness and interruption flags, and the
reader state is the queue/thread pair observed at the moment the decisive
queue operation resolves.
-/

/--
Embeds InterruptableThread (src/adb_thread.py lines 29-99): `alive` is the
liveness reported by is_alive, `pendingInterrupt` records that _async_raise
has delivered the asynchronous _InterruptThread exception (it takes effect at
the next cooperative checkpoint), and `interruptedFlag` is the
threading.Event set by run when the exception is caught.
-/
structure IThread where
  alive : Bool
  pendingInterrupt : Bool
  interruptedFlag : Bool
deriving DecidableEq

/-- Embeds threading.ThreadError as raised by _get_my_tid ("the thread is not
active"). -/
inductive ThreadExc where
  | threadError
deriving DecidableEq

/-- Embeds InterruptableThread._get_my_tid (src/adb_thread.py lines 50-73):
raises ThreadError when the thread is not alive, otherwise yields the thread
id (abstracted to Unit, since only success or failure matters here). -/
def IThread.getMyTid (t : IThread) : Except ThreadExc Unit :=
  if t.alive then Except.ok () else Except.error ThreadExc.threadError

/-- Embeds InterruptableThread.interrupt (src/adb_thread.py lines 41-42),
which is _raise_exc(_InterruptThread) = _async_raise(_get_my_tid(), ...):
any ThreadError from _get_my_tid propagates to the caller; on an alive
thread the asynchronous exception becomes pending. -/
def IThread.interrupt (t : IThread) : Except ThreadExc IThread :=
  match t.getMyTid with
  | Except.error e => Except.error e
  | Except.ok _ => Except.ok { t with pendingInterrupt := true }

/-- Embeds Thread.join on an InterruptableThread: blocks until the thread
terminates.  A pending _InterruptThread exception unwinds the task and run
(src/adb_thread.py lines 44-48) catches it and sets the interrupted event;
joining a terminated thread changes nothing. -/
def IThread.join (t : IThread) : IThread :=
  if t.alive then
    { alive := false, pendingInterrupt := false,
      interruptedFlag := t.interruptedFlag || t.pendingInterrupt }
  else t

/--
Embeds the state of NonBlockingReader (src/adb_nio.py lines 6-41): `queue`
is the FIFO of lines the worker has put but the caller has not yet taken,
and `thread` is the worker.  The record is read at the moment the
Queue.get call inside readline resolves: at call time when the call does
not block, at window expiry when it does.
-/
structure NonBlockingReader where
  queue : List String
  thread : IThread
deriving DecidableEq

/-- Outcome of NonBlockingReader.readline: a dequeued line, the raised
TimeoutException, or the terminal end-of-stream marker None. -/
inductive ReadOutcome where
  | line (s : String)
  | timeoutExc
  | eos
deriving DecidableEq

/-- Embeds NonBlockingReader.readline (src/adb_nio.py lines 20-32):
Queue.get(block=timeout is not None, timeout=timeout) returns the head of
the queue when one is present; on an empty queue it raises Empty (at once
when timeout is None, because then block=False; after the window elapses
otherwise), upon which readline raises TimeoutException when the worker is
still alive and returns None when it is not.  The timeout argument decides
only whether the call waits, never the outcome computed from the resolved
state, so the embedding keeps it for the signature. -/
def NonBlockingReader.readline (st : NonBlockingReader) (timeout : Option Nat) :
    ReadOutcome × NonBlockingReader :=
  match st.queue with
  | l :: rest => (ReadOutcome.line l, { st with queue := rest })
  | [] =>
    if st.thread.alive then (ReadOutcome.timeoutExc, st)
    else (ReadOutcome.eos, st)

/-- Embeds NonBlockingReader.close (src/adb_nio.py lines 34-37): when the
worker is alive, interrupt it and join; otherwise do nothing.  The
Except.error branch of interrupt is unreachable here because close only
calls it on an alive thread. -/
def NonBlockingReader.close (st : NonBlockingReader) : NonBlockingReader :=
  if st.thread.alive then
    match st.thread.interrupt with
    | Except.ok t2 => { st with thread := t2.join }
    | Except.error _ => st
  else st

/-- One line produced by the child process on its stdout pipe: either it
decodes as valid text or decoding it raises UnicodeDecodeError (the stream
is opened with universal_newlines=True, so decoding happens while the
worker iterates it). -/
inductive StreamItem where
  | ok (s : String)
  | bad
deriving DecidableEq

/-- Embeds NonBlockingReader._run (src/adb_nio.py lines 39-41), the worker
task `for line in self._stream: self._queue.put(line)`: each decoded line is
queued in order; a UnicodeDecodeError raised by the iteration is caught
nowhere (InterruptableThread.run catches only _InterruptThread), so the
worker thread dies there and no later line is ever queued.  Returns the
lines the worker queues over its whole life. -/
def NonBlockingReader.run : List StreamItem → List String
  | [] => []
  | StreamItem.ok s :: rest => s :: NonBlockingReader.run rest
  | StreamItem.bad :: _ => []

/-- The decodable lines of a stream, in order: what _run would queue if a
decode failure only skipped the offending line. -/
def okLines : List StreamItem → List String
  | [] => []
  | StreamItem.ok s :: rest => s :: okLines rest
  | StreamItem.bad :: rest => okLines rest

/--
Embeds the state of class Adb (src/__init__.py lines 244-260): the optional
serial set by s()/connect() and the two logging switches.
-/
structure Adb where
  serial : Option String
  isLogOutputEnabled : Bool
  isLogCommandEnabled : Bool
deriving DecidableEq

/-- Embeds Adb.is_connected (src/__init__.py lines 303-308). -/
def Adb.isConnected (a : Adb) : Bool := a.serial.isSome

/-- Embeds Adb.s (src/__init__.py lines 294-301): temporarily set the global
option -s serial. -/
def Adb.s (a : Adb) (serial : String) : Adb := { a with serial := some serial }

/-- Embeds Adb.connect (src/__init__.py lines 310-321): when already
connected, print an error and return False; otherwise store the serial and
return True. -/
def Adb.connect (a : Adb) (serial : String) : Bool × Adb :=
  if a.isConnected then (false, a)
  else (true, { a with serial := some serial })

/-- Embeds Adb.disconnect (src/__init__.py lines 323-333): when connected,
clear the serial and return True; otherwise print an error and return
False. -/
def Adb.disconnect (a : Adb) : Bool × Adb :=
  if a.isConnected then (true, { a with serial := none })
  else (false, a)

/-- Embeds Adb._reset (src/__init__.py lines 581-587): sets _serial to None
only under the guard `not self.is_connected()`. -/
def Adb.reset (a : Adb) : Adb :=
  if !a.isConnected then { a with serial := none } else a

/-- Embeds AdbGlobalOption_s.__call__ (src/__init__.py lines 194-198). -/
def adbGlobalOptionS (a : Adb) : List String :=
  match a.serial with
  | some sn => ["-s", sn]
  | none => []

/-- Embeds Adb._prepare (src/__init__.py lines 589-597): the executable
followed by the contributions of the global option providers. -/
def Adb.prepare (a : Adb) : List String :=
  ["adb"] ++ adbGlobalOptionS a

/-- Embeds the command assembly at the top of Adb._poll_cmd_output
(src/__init__.py lines 651-655): prepared prefix plus the given tokens with
empty strings dropped. -/
def Adb.finalCmd (a : Adb) (adbCmd : List String) : List String :=
  a.prepare ++ adbCmd.filter (fun e => e != "")

/-- Embeds _from_proc_output (src/__init__.py lines 39-46): decode and strip
the characters space, tab and newline from both ends. -/
def isStripChar (c : Char) : Bool := c = ' ' || c = '\t' || c = '\n'

/-- Strip of leading and trailing space/tab/newline characters, as
str.strip with that character set does. -/
def fromProcOutput (output : String) : String :=
  String.mk (((output.toList.dropWhile isStripChar).reverse.dropWhile
    isStripChar).reverse)

/-- One observable step of the polling loop in Adb._poll_cmd_output: either
readline raised TimeoutException, or it delivered a line.  A trace is the
sequence of such steps before the reader reports end of stream. -/
inductive PollEvent where
  | timeout
  | line (s : String)
deriving DecidableEq

/-- The external process as the loop observes it once the reader reports end
of stream: its exit code from proc.poll() and the raw bytes it wrote to the
temporary stderr file. -/
structure ProcResult where
  rc : Int
  stderrText : String
deriving DecidableEq

/-- Embeds raising CalledProcessError(returncode, cmd, output=None, stderr)
versus falling out of the loop normally (success break or callback-requested
break). -/
inductive PollOutcome where
  | normal
  | calledProcessError (returncode : Int) (cmd : String) (stderrText : String)
deriving DecidableEq

/-- The observable effects of one Adb._poll_cmd_output call: the final
callback accumulator, the raised-or-normal outcome, whether reader.close()
and the temporary file close() ran, and the Adb state afterwards. -/
structure PollResult (σ : Type) where
  cbState : σ
  outcome : PollOutcome
  readerClosed : Bool
  tempClosed : Bool
  adbAfter : Adb

/-- Embeds the while loop of Adb._poll_cmd_output (src/__init__.py lines
661-681) up to the end-of-stream check: each timeout event invokes the
callback with (True, empty) and each line event with (False, line); a True
return breaks out of the loop early.  The callback is a state transformer
returning its next accumulator and the stop flag.  Result: final
accumulator, and whether the loop stopped early (True) or consumed the
whole trace and reached the end-of-stream marker (False). -/
def pollLoop {σ : Type} (cb : σ → Bool → String → σ × Bool) :
    List PollEvent → σ → σ × Bool
  | [], s => (s, false)
  | PollEvent.timeout :: rest, s =>
    if (cb s true "").2 then ((cb s true "").1, true)
    else pollLoop cb rest (cb s true "").1
  | PollEvent.line l :: rest, s =>
    if (cb s false l).2 then ((cb s false l).1, true)
    else pollLoop cb rest (cb s false l).1

/-- Embeds Adb._poll_cmd_output (src/__init__.py lines 641-686).  After the
loop: a callback-requested break or exit code 0 falls through to the shared
cleanup (reader.close(), t.close(), proc.terminate()) and then self._reset();
a non-zero exit code runs the in-branch cleanup (lines 673-677) and raises
CalledProcessError carrying the exit code, the space-joined formatted
command line, and the stripped stderr capture - the raise skips the
trailing self._reset() call. -/
def Adb.pollCmdOutput {σ : Type} (a : Adb) (adbCmd : List String)
    (cb : σ → Bool → String → σ × Bool) (s0 : σ)
    (events : List PollEvent) (proc : ProcResult) : PollResult σ :=
  if (pollLoop cb events s0).2 then
    { cbState := (pollLoop cb events s0).1, outcome := PollOutcome.normal,
      readerClosed := true, tempClosed := true, adbAfter := a.reset }
  else if proc.rc = 0 then
    { cbState := (pollLoop cb events s0).1, outcome := PollOutcome.normal,
      readerClosed := true, tempClosed := true, adbAfter := a.reset }
  else
    { cbState := (pollLoop cb events s0).1,
      outcome := PollOutcome.calledProcessError proc.rc
        (String.intercalate " " (a.finalCmd adbCmd))
        (fromProcOutput proc.stderrText),
      readerClosed := true, tempClosed := true, adbAfter := a }

/-- Embeds the inner callback of Adb._exec_command (src/__init__.py lines
628-632): ignore timeouts, append every line to the buffer, never request
termination. -/
def execCallbackStep (buf : List String) (timedOut : Bool) (line : String) :
    List String × Bool :=
  if timedOut then (buf, false) else (buf ++ [line], false)

/-- Embeds Adb._exec_command (src/__init__.py lines 620-639): run the
polling loop with the accumulating callback and timeout 0; on
CalledProcessError return (returncode, stderr), otherwise return
(0, concatenation of the buffered lines). -/
def Adb.execCommand (a : Adb) (adbCmd : List String) (events : List PollEvent)
    (proc : ProcResult) : (Int × String) × Adb :=
  let r := a.pollCmdOutput adbCmd execCallbackStep [] events proc
  match r.outcome with
  | PollOutcome.normal => ((0, String.join r.cbState), r.adbAfter)
  | PollOutcome.calledProcessError rc _ err => ((rc, err), r.adbAfter)

/-- The lines carried by a poll trace, in order, with timeouts dropped. -/
def linesOf : List PollEvent → List String
  | [] => []
  | PollEvent.timeout :: rest => linesOf rest
  | PollEvent.line l :: rest => l :: linesOf rest

/-- Helper: Adb._reset never changes anything.  Its guard
`not self.is_connected()` holds exactly when _serial is already None, in
which case the assignment rewrites None with None; when a serial is set the
guard fails and the body is skipped. -/
theorem reset_eq (a : Adb) : a.reset = a := by
  cases a with
  | mk serial lo lc =>
    cases serial <;> simp [Adb.reset, Adb.isConnected]

/-- Helper: the polling loop driven by the accumulating callback of
Adb._exec_command never stops early and appends exactly the line events of
the trace, in order, to the buffer. -/
theorem pollLoop_exec (events : List PollEvent) (buf : List String) :
    pollLoop execCallbackStep events buf = (buf ++ linesOf events, false) := by
  induction events generalizing buf with
  | nil => simp [pollLoop, linesOf]
  | cons e rest ih =>
    cases e with
    | timeout => simp [pollLoop, execCallbackStep, linesOf, ih]
    | line l => simp [pollLoop, execCallbackStep, linesOf, ih]

/-- Helper: a trace consisting only of line events carries exactly those
lines. -/
theorem linesOf_map_line (ls : List String) :
    linesOf (ls.map PollEvent.line) = ls := by
  induction ls with
  | nil => rfl
  | cons l rest ih => simp [linesOf, ih]

/-- Helper: when the stream holds a line that fails to decode, the worker
queues exactly the lines before the first failure and dies there; everything
after the failing line is lost. -/
theorem run_append_bad (post : List StreamItem) :
    ∀ pre : List StreamItem, StreamItem.bad ∉ pre →
      NonBlockingReader.run (pre ++ StreamItem.bad :: post) = okLines pre := by
  intro pre
  induction pre with
  | nil => intro _; simp [NonBlockingReader.run, okLines]
  | cons x xs ih =>
    intro h
    cases x with
    | ok s =>
      simp [NonBlockingReader.run, okLines,
        ih (fun hc => h (List.mem_cons_of_mem _ hc))]
    | bad => exact absurd (List.mem_cons_self _ _) h

/-- Claim C1, counterexample: with timeout unset (None), readline on a
reader whose queue is empty and whose worker is still alive raises
TimeoutException immediately - Queue.get is called with block=False, so the
call does not wait at all - contradicting the claim that readline with
timeout None never raises the timeout signal. -/
theorem readline_none_raises_timeout_cex :
    NonBlockingReader.readline
        { queue := [],
          thread := { alive := true, pendingInterrupt := false,
                      interruptedFlag := false } } none
      = (ReadOutcome.timeoutExc,
         { queue := [],
           thread := { alive := true, pendingInterrupt := false,
                       interruptedFlag := false } }) ∧
    ReadOutcome.timeoutExc ≠ ReadOutcome.eos := by
  exact ⟨rfl, by decide⟩

/-- Claim C1, amended: with timeout unset (None) readline performs a
non-blocking poll: it returns a queued line when one is immediately
available, raises TimeoutException when the queue is empty and the worker is
still alive, and returns the end-of-stream marker None when the queue is
empty and the worker has terminated. -/
theorem readline_none_nonblocking (st : NonBlockingReader) :
    (∀ (l : String) (rest : List String), st.queue = l :: rest →
      st.readline none = (ReadOutcome.line l, { st with queue := rest })) ∧
    (st.queue = [] → st.thread.alive = true →
      st.readline none = (ReadOutcome.timeoutExc, st)) ∧
    (st.queue = [] → st.thread.alive = false →
      st.readline none = (ReadOutcome.eos, st)) := by
  refine ⟨?_, ?_, ?_⟩
  · intro l rest hq
    simp [NonBlockingReader.readline, hq]
  · intro hq ha
    simp [NonBlockingReader.readline, hq, ha]
  · intro hq ha
    simp [NonBlockingReader.readline, hq, ha]

/-- Claim C1, witness for the amended theorem at concrete reader states. -/
theorem readline_none_nonblocking_witness :
    NonBlockingReader.readline
        { queue := ["hello\n"],
          thread := { alive := true, pendingInterrupt := false,
                      interruptedFlag := false } } none
      = (ReadOutcome.line "hello\n",
         { queue := [],
           thread := { alive := true, pendingInterrupt := false,
                       interruptedFlag := false } }) ∧
    NonBlockingReader.readline
        { queue := [],
          thread := { alive := false, pendingInterrupt := false,
                      interruptedFlag := true } } none
      = (ReadOutcome.eos,
         { queue := [],
           thread := { alive := false, pendingInterrupt := false,
                       interruptedFlag := true } }) := by
  exact ⟨(readline_none_nonblocking _).1 "hello\n" [] rfl,
         (readline_none_nonblocking _).2.2 rfl rfl⟩

/-- Claim C4: when a finite-timeout readline resolves with the queue empty,
a still-alive worker yields TimeoutException (never the end-of-stream
marker), and a terminated worker yields the end-of-stream marker None; in
the latter case the state is unchanged, so every subsequent readline call,
with any timeout, keeps returning the end-of-stream marker. -/
theorem readline_finite_timeout (t : Nat) (st : NonBlockingReader)
    (hq : st.queue = []) :
    (st.thread.alive = true →
      st.readline (some t) = (ReadOutcome.timeoutExc, st)) ∧
    (st.thread.alive = false →
      ∀ t2 : Option Nat, st.readline t2 = (ReadOutcome.eos, st)) := by
  constructor
  · intro ha
    simp [NonBlockingReader.readline, hq, ha]
  · intro ha t2
    simp [NonBlockingReader.readline, hq, ha]

/-- Claim C4, witness at concrete reader states with timeout 5. -/
theorem readline_finite_timeout_witness :
    NonBlockingReader.readline
        { queue := [],
          thread := { alive := true, pendingInterrupt := false,
                      interruptedFlag := false } } (some 5)
      = (ReadOutcome.timeoutExc,
         { queue := [],
           thread := { alive := true, pendingInterrupt := false,
                       interruptedFlag := false } }) ∧
    NonBlockingReader.readline
        { queue := [],
          thread := { alive := false, pendingInterrupt := false,
                      interruptedFlag := true } } (some 5)
      = (ReadOutcome.eos,
         { queue := [],
           thread := { alive := false, pendingInterrupt := false,
                       interruptedFlag := true } }) := by
  exact ⟨(readline_finite_timeout 5 _ rfl).1 rfl,
         (readline_finite_timeout 5 _ rfl).2 rfl (some 5)⟩

/-- Claim C7, counterexample: calling interrupt on a thread that has already
finished (not alive) raises ThreadError from _get_my_tid rather than
returning normally, so it is not a no-op. -/
theorem interrupt_dead_thread_cex :
    IThread.interrupt
        { alive := false, pendingInterrupt := false, interruptedFlag := false }
      = Except.error ThreadExc.threadError := by
  rfl

/-- Claim C7, amended: interrupt on a thread that is not alive (already
finished, or never started) raises ThreadError - the same "the thread is
not active" error _get_my_tid raises for a not-yet-started thread - while
interrupt on an alive thread returns normally with the asynchronous
exception pending. -/
theorem interrupt_spec (t : IThread) :
    (t.alive = false → t.interrupt = Except.error ThreadExc.threadError) ∧
    (t.alive = true →
      t.interrupt = Except.ok { t with pendingInterrupt := true }) := by
  constructor
  · intro ha
    simp [IThread.interrupt, IThread.getMyTid, ha]
  · intro ha
    simp [IThread.interrupt, IThread.getMyTid, ha]

/-- Claim C7, witness at a finished and at an alive concrete thread. -/
theorem interrupt_spec_witness :
    IThread.interrupt
        { alive := false, pendingInterrupt := false, interruptedFlag := true }
      = Except.error ThreadExc.threadError ∧
    IThread.interrupt
        { alive := true, pendingInterrupt := false, interruptedFlag := false }
      = Except.ok
          { alive := true, pendingInterrupt := true,
            interruptedFlag := false } := by
  exact ⟨(interrupt_spec _).1 rfl, (interrupt_spec _).2 rfl⟩

/-- Claim C8: close leaves no worker thread alive - when the worker was
alive it is interrupted and joined, and joining only returns once the thread
has terminated - and a second close of an already closed reader is a no-op,
so close is idempotent and may be called any number of times. -/
theorem close_idempotent_stops_worker (st : NonBlockingReader) :
    (st.close).thread.alive = false ∧ (st.close).close = st.close := by
  by_cases hA : st.thread.alive = true
  · have h1 : st.close = { st with thread :=
        { alive := false, pendingInterrupt := false,
          interruptedFlag := true } } := by
      simp [NonBlockingReader.close, IThread.interrupt, IThread.getMyTid,
        IThread.join, hA]
    rw [h1]
    exact ⟨rfl, by simp [NonBlockingReader.close]⟩
  · have hA2 : st.thread.alive = false := by
      simpa using hA
    have h1 : st.close = st := by
      simp [NonBlockingReader.close, hA2]
    rw [h1]
    exact ⟨hA2, h1⟩

/-- Claim C2 (code bug): on every exit path of _poll_cmd_output the reader
and the temporary stderr file are indeed closed, but the one-shot serial set
via Adb.s is never reset - _reset is the identity on every Adb state, since
its guard `not self.is_connected()` is false exactly when a serial is set
(and on the non-zero-exit path _reset is not even reached, because the raise
exits first) - so the Adb state after any invocation, shown concretely for
the serial emulator-5554, is exactly the state before it. -/
theorem poll_cleanup_without_reset :
    (∀ a : Adb, a.reset = a) ∧
    (Adb.reset { serial := some "emulator-5554", isLogOutputEnabled := false,
                 isLogCommandEnabled := false }).serial
      = some "emulator-5554" ∧
    (∀ (σ : Type) (cb : σ → Bool → String → σ × Bool) (s0 : σ) (a : Adb)
        (adbCmd : List String) (events : List PollEvent) (proc : ProcResult),
      (a.pollCmdOutput adbCmd cb s0 events proc).readerClosed = true ∧
      (a.pollCmdOutput adbCmd cb s0 events proc).tempClosed = true ∧
      (a.pollCmdOutput adbCmd cb s0 events proc).adbAfter = a) := by
  refine ⟨reset_eq, rfl, ?_⟩
  intro σ cb s0 a adbCmd events proc
  unfold Adb.pollCmdOutput
  split
  · exact ⟨rfl, rfl, reset_eq a⟩
  · split
    · exact ⟨rfl, rfl, reset_eq a⟩
    · exact ⟨rfl, rfl, rfl⟩

/-- Claim C3: when the external process exits with a non-zero code and the
polling loop runs to end of stream (as it does under the accumulating
callback of _exec_command, which never requests early termination), the loop
takes the error path exactly once, raising CalledProcessError that carries
that exact exit code, the space-joined fully formatted command line, and the
stripped captured stderr text; no normal result is produced, and
_exec_command surfaces the pair of exit code and stderr text. -/
theorem exec_error_path (a : Adb) (adbCmd : List String)
    (events : List PollEvent) (rc : Int) (err : String) (h : rc ≠ 0) :
    (a.pollCmdOutput adbCmd execCallbackStep [] events ⟨rc, err⟩).outcome
        = PollOutcome.calledProcessError rc
            (String.intercalate " " (a.finalCmd adbCmd))
            (fromProcOutput err) ∧
    (a.pollCmdOutput adbCmd execCallbackStep [] events ⟨rc, err⟩).outcome
        ≠ PollOutcome.normal ∧
    (a.execCommand adbCmd events ⟨rc, err⟩).1 = (rc, fromProcOutput err) := by
  have hp := pollLoop_exec events []
  refine ⟨?_, ?_, ?_⟩ <;>
    simp [Adb.execCommand, Adb.pollCmdOutput, hp, h]

/-- Claim C3, witness: a command that fails with exit code 1 and stderr
boom yields the error outcome with code 1 and text boom. -/
theorem exec_error_path_witness :
    (Adb.execCommand
        { serial := none, isLogOutputEnabled := false,
          isLogCommandEnabled := false }
        ["shell", "ls"] [] ⟨1, "boom"⟩).1 = (1, "boom") := by
  have h := (exec_error_path
    { serial := none, isLogOutputEnabled := false,
      isLogCommandEnabled := false }
    ["shell", "ls"] [] 1 "boom" (by decide)).2.2
  rw [h]
  decide

/-- Claim C5: when the external process exits with code 0, _exec_command
returns status 0 together with the concatenation of all line events of the
trace, in order, with no line dropped or reordered and no early termination
requested; interleaved timeout events - hence the polling timeout in use -
do not affect the result. -/
theorem exec_success_joins_lines (a : Adb) (adbCmd : List String)
    (events : List PollEvent) (err : String) :
    (a.execCommand adbCmd events ⟨0, err⟩).1
      = (0, String.join (linesOf events)) := by
  have hp := pollLoop_exec events []
  simp [Adb.execCommand, Adb.pollCmdOutput, hp]

/-- Claim C6, counterexample: a stream whose first line fails to decode and
whose second line is the valid text line a: the worker queues nothing at
all, and the command returns the empty output, not the output a that mere
skipping of the malformed line would give - so the malformed line is not
merely skipped and polling does not continue past it. -/
theorem decode_failure_drops_rest_cex :
    NonBlockingReader.run [StreamItem.bad, StreamItem.ok "a\n"] = [] ∧
    (Adb.execCommand
        { serial := none, isLogOutputEnabled := false,
          isLogCommandEnabled := false }
        ["shell", "cat"]
        ((NonBlockingReader.run
            [StreamItem.bad, StreamItem.ok "a\n"]).map PollEvent.line)
        ⟨0, ""⟩).1 = (0, "") ∧
    ((0 : Int), "") ≠ ((0 : Int), "a\n") := by
  refine ⟨rfl, by decide, by decide⟩

/-- Claim C6, amended: a decode failure in one line terminates the worker
thread, so that line and every later line are dropped: the queued lines are
exactly the decodable lines before the first failure, and the caller sees an
ordinary end of stream - with exit code 0 the command still completes
normally with those lines, and the failure never escalates to the caller as
an exception. -/
theorem run_decode_kills_worker (pre post : List StreamItem)
    (h : StreamItem.bad ∉ pre) :
    NonBlockingReader.run (pre ++ StreamItem.bad :: post) = okLines pre ∧
    ∀ (a : Adb) (adbCmd : List String) (err : String),
      (a.execCommand adbCmd
          ((NonBlockingReader.run
              (pre ++ StreamItem.bad :: post)).map PollEvent.line)
          ⟨0, err⟩).1 = (0, String.join (okLines pre)) := by
  have hrun := run_append_bad post pre h
  refine ⟨hrun, ?_⟩
  intro a adbCmd err
  rw [hrun]
  have hp := pollLoop_exec ((okLines pre).map PollEvent.line) []
  simp [Adb.execCommand, Adb.pollCmdOutput, hp, linesOf_map_line]

/-- Claim C6, witness: a stream with one good line, one undecodable line and
one further good line delivers only the first line. -/
theorem run_decode_kills_worker_witness :
    NonBlockingReader.run
        [StreamItem.ok "x\n", StreamItem.bad, StreamItem.ok "y\n"]
      = ["x\n"] ∧
    (Adb.execCommand
        { serial := none, isLogOutputEnabled := false,
          isLogCommandEnabled := false }
        ["shell", "cat"]
        ((NonBlockingReader.run
            [StreamItem.ok "x\n", StreamItem.bad,
             StreamItem.ok "y\n"]).map PollEvent.line)
        ⟨0, ""⟩).1 = (0, String.join ["x\n"]) := by
  have h := run_decode_kills_worker [StreamItem.ok "x\n"] [StreamItem.ok "y\n"]
    (by decide)
  exact ⟨h.1, h.2 _ _ _⟩

/-- Claim C9, counterexample: a command whose process prints exactly the
single stdout line hello followed by a newline and exits 0 does not return
the pair of 0 and hello: the trailing newline of the emitted line is kept,
because _exec_command joins the buffered lines without stripping them. -/
theorem exec_hello_cex :
    (Adb.execCommand
        { serial := none, isLogOutputEnabled := false,
          isLogCommandEnabled := false }
        ["shell", "echo", "hello"] [PollEvent.line "hello\n"] ⟨0, ""⟩).1
      ≠ ((0 : Int), "hello") := by
  decide

/-- Claim C9, amended: a command whose process prints exactly the single
stdout line hello followed by a newline and exits 0 makes _exec_command
return status 0 with the text hello followed by a newline, the emitted line
verbatim. -/
theorem exec_hello_amended :
    (Adb.execCommand
        { serial := none, isLogOutputEnabled := false,
          isLogCommandEnabled := false }
        ["shell", "echo", "hello"] [PollEvent.line "hello\n"] ⟨0, ""⟩).1
      = ((0 : Int), "hello\n") := by
  decide

/-- Claim C10: connect succeeds - returning True and storing the serial -
exactly when no serial is currently stored; with a serial already stored it
returns False and leaves the state unchanged, and disconnect with no serial
stored returns False and changes nothing. -/
theorem connect_disconnect_spec (a : Adb) (serial : String) :
    (a.serial = none →
      a.connect serial = (true, { a with serial := some serial })) ∧
    (∀ s0 : String, a.serial = some s0 → a.connect serial = (false, a)) ∧
    (a.serial = none → a.disconnect = (false, a)) := by
  refine ⟨?_, ?_, ?_⟩
  · intro h
    simp [Adb.connect, Adb.isConnected, h]
  · intro s0 h
    simp [Adb.connect, Adb.isConnected, h]
  · intro h
    simp [Adb.disconnect, Adb.isConnected, h]

/-- Claim C10, witness at concrete Adb states: connect on a fresh instance
succeeds and stores the serial, connect on a connected instance fails and
changes nothing, disconnect on a fresh instance fails and changes
nothing. -/
theorem connect_disconnect_spec_witness :
    Adb.connect
        { serial := none, isLogOutputEnabled := false,
          isLogCommandEnabled := false } "emulator-5554"
      = (true,
         { serial := some "emulator-5554", isLogOutputEnabled := false,
           isLogCommandEnabled := false }) ∧
    Adb.connect
        { serial := some "abc", isLogOutputEnabled := false,
          isLogCommandEnabled := false } "emulator-5554"
      = (false,
         { serial := some "abc", isLogOutputEnabled := false,
           isLogCommandEnabled := false }) ∧
    Adb.disconnect
        { serial := none, isLogOutputEnabled := false,
          isLogCommandEnabled := false }
      = (false,
         { serial := none, isLogOutputEnabled := false,
           isLogCommandEnabled := false }) := by
  exact ⟨(connect_disconnect_spec _ "emulator-5554").1 rfl,
         (connect_disconnect_spec _ "emulator-5554").2.1 "abc" rfl,
         (connect_disconnect_spec _ "emulator-5554").2.2 rfl⟩
